import Mathlib

/-!
Shallow embedding of `src/src/core/segments/quota.rs` (the quota segment of
the ccline-yescc statusline renderer).

Modelling conventions:
* `f64` money amounts are modelled as `ℚ`; every concrete value exercised
  here is an exact cent amount, where ideal and IEEE arithmetic coincide.
* The process environment, the home directory, the filesystem, the JSON
  parser (`serde_json`, an external library) and the two HTTP endpoints are
  the I/O boundary; they are bundled as oracle functions in a `World`
  record, read-only during one `collect` call (the code re-reads them
  each call and never writes).
* Functions that issue HTTP requests additionally return the list of
  requests issued (a `List ReqEvent` trace), so that "the balance endpoint
  was queried" is statable; the first component is exactly the source
  function's return value.
* Rust `env::var` yields `Err` both for an unset and a non-unicode
  variable; both collapse to `none` in the `envVar` oracle, exactly as the
  code collapses them with `if let Ok(..)`.
-/

/-- `DailyUsage` record of the usage response (quota.rs lines 25-30). -/
structure DailyUsage where
  date : String
  total_cost : ℚ
deriving DecidableEq

/-- `YesCodeApiResponse` (quota.rs lines 12-15). -/
structure YesCodeApiResponse where
  daily_usage : List DailyUsage
deriving DecidableEq

/-- `BalanceApiResponse` (quota.rs lines 17-23). -/
structure BalanceApiResponse where
  balance : ℚ
  pay_as_you_go_balance : ℚ
  subscription_balance : ℚ
  total_balance : ℚ
deriving DecidableEq

/-- `EndpointConfig` (quota.rs lines 33-37). -/
structure EndpointConfig where
  url : String
  name : String
deriving DecidableEq

/-- `BalanceEndpointConfig` (quota.rs lines 39-43). -/
structure BalanceEndpointConfig where
  url : String
  name : String
deriving DecidableEq

/-- A JSON value, the shape `serde_json::Value` exposes to
`load_from_settings` (`get` on objects, `as_str` on strings). -/
inductive JsonVal where
  | str (s : String)
  | num (q : ℚ)
  | bool (b : Bool)
  | null
  | arr (elems : List JsonVal)
  | obj (fields : List (String × JsonVal))

/-- `serde_json::Value::get(key)`: field lookup on an object, `None` on any
other value. -/
def jget (v : JsonVal) (key : String) : Option JsonVal :=
  match v with
  | .obj fields => fields.lookup key
  | _ => none

/-- `serde_json::Value::as_str()`. -/
def jasStr (v : JsonVal) : Option String :=
  match v with
  | .str s => some s
  | _ => none

/-- Outcome of one `ureq::get(..).call()` followed by a body decode:
either a transport error, or a response with a status code and the result
of decoding its body as `α` (`into_json::<α>().ok()`). -/
inductive HttpCallResult (α : Type) where
  | err
  | resp (status : ℕ) (decoded : Option α)

/-- One HTTP request issued during a collection, identified by its URL. -/
inductive ReqEvent where
  | usage (url : String)
  | balance (url : String)
deriving DecidableEq

/-- `SegmentData` as the quota segment populates it: primary and secondary
display strings plus a string-to-string metadata map.  The Rust `HashMap`
is modelled as an association list in insertion order; theorems about
metadata are phrased via `lookup` (keys are never inserted twice). -/
structure SegmentData where
  primary : String
  secondary : String
  metadata : List (String × String)
deriving DecidableEq

/-- The read-only I/O boundary of one `collect` call. -/
structure World where
  /-- `env::var` -/
  envVar : String → Option String
  /-- `dirs::home_dir()` -/
  homeDir : Option String
  /-- `fs::read_to_string` on a path -/
  readFile : String → Option String
  /-- `serde_json::from_str::<Value>` -/
  parseJson : String → Option JsonVal
  /-- the usage HTTP GET: url, `X-API-Key` header value ↦ outcome -/
  usageCall : String → String → HttpCallResult YesCodeApiResponse
  /-- the balance HTTP GET: url, `X-API-Key` header value ↦ outcome -/
  balanceCall : String → String → HttpCallResult BalanceApiResponse

/-- `PathBuf::join` chaining as used here. -/
def pathJoin (a b : String) : String := a ++ "/" ++ b

/-- Rust's `str::trim`: strip leading and trailing whitespace.  (Rust trims
the Unicode White_Space set; `Char.isWhitespace` covers the ASCII subset,
which agrees on every input exercised here.) -/
def strTrim (s : String) : String :=
  String.mk ((s.data.dropWhile Char.isWhitespace).reverse.dropWhile
    Char.isWhitespace).reverse

/-- `home.join(".claude").join("settings.json")`. -/
def settingsPath (home : String) : String :=
  pathJoin (pathJoin home ".claude") "settings.json"

/-- `home.join(".claude").join("api_key")`. -/
def apiKeyPath (home : String) : String :=
  pathJoin (pathJoin home ".claude") "api_key"

/-- `SmartEndpointDetector::new` (quota.rs lines 61-68): the static usage
endpoint catalog. -/
def SmartEndpointDetector.new : List EndpointConfig :=
  [{ url := "https://co.yes.vg/api/v1/user/usage/daily", name := "main" }]

/-- `SmartEndpointDetector::get_balance_endpoint` (quota.rs lines 70-75). -/
def get_balance_endpoint : BalanceEndpointConfig :=
  { url := "https://co.yes.vg/api/v1/user/balance", name := "balance" }

/-- `SmartEndpointDetector::try_endpoint` (quota.rs lines 95-141): one GET
against a usage endpoint; any transport error, non-200 status or decode
failure collapses to `none`.  The second component records the request
issued.  (The `YESCODE_DEBUG` eprintln diagnostics touch only stderr and
are not modelled.) -/
def try_endpoint (w : World) (endpoint : EndpointConfig) (api_key : String) :
    Option YesCodeApiResponse × List ReqEvent :=
  (match w.usageCall endpoint.url api_key with
   | .err => none
   | .resp status decoded => if status = 200 then decoded else none,
   [ReqEvent.usage endpoint.url])

/-- The loop body of `SmartEndpointDetector::detect_endpoint` (quota.rs
lines 143-153): try the endpoints in order, return on the first success
together with the answering endpoint's url. -/
def detect_endpoint_loop (w : World) (api_key : String) :
    List EndpointConfig → Option (String × YesCodeApiResponse) × List ReqEvent
  | [] => (none, [])
  | endpoint :: rest =>
    let t := try_endpoint w endpoint api_key
    match t.1 with
    | some response => (some (endpoint.url, response), t.2)
    | none =>
      let r := detect_endpoint_loop w api_key rest
      (r.1, t.2 ++ r.2)

/-- `SmartEndpointDetector::detect_endpoint_static` (quota.rs lines
155-158): build a fresh detector (`new`) and run the detection loop. -/
def detect_endpoint_static (w : World) (api_key : String) :
    Option (String × YesCodeApiResponse) × List ReqEvent :=
  detect_endpoint_loop w api_key SmartEndpointDetector.new

/-- `SmartEndpointDetector::try_balance_endpoint` (quota.rs lines 160-206):
one GET against the single balance endpoint, same failure collapsing. -/
def try_balance_endpoint (w : World) (api_key : String) :
    Option BalanceApiResponse × List ReqEvent :=
  (match w.balanceCall get_balance_endpoint.url api_key with
   | .err => none
   | .resp status decoded => if status = 200 then decoded else none,
   [ReqEvent.balance get_balance_endpoint.url])

/-- `QuotaSegment::load_from_settings` (quota.rs lines 249-270).  Note the
fall-through structure: a present but non-string `ANTHROPIC_AUTH_TOKEN`
does not return; control continues to `ANTHROPIC_API_KEY`. -/
def load_from_settings (w : World) : Option String :=
  match w.homeDir with
  | none => none
  | some home =>
    match w.readFile (settingsPath home) with
    | none => none
    | some content =>
      match w.parseJson content with
      | none => none
      | some settings =>
        match jget settings "env" with
        | none => none
        | some env =>
          match Option.bind (jget env "ANTHROPIC_AUTH_TOKEN") jasStr with
          | some token_str => some token_str
          | none =>
            match Option.bind (jget env "ANTHROPIC_API_KEY") jasStr with
            | some key_str => some key_str
            | none => none

/-- `QuotaSegment::load_api_key` (quota.rs lines 217-247): env vars in a
fixed order, then the settings file, then the (trimmed) key file. -/
def load_api_key (w : World) : Option String :=
  match w.envVar "YESCODE_API_KEY" with
  | some key => some key
  | none =>
    match w.envVar "ANTHROPIC_API_KEY" with
    | some key => some key
    | none =>
      match w.envVar "ANTHROPIC_AUTH_TOKEN" with
      | some key => some key
      | none =>
        match load_from_settings w with
        | some key => some key
        | none =>
          match w.homeDir with
          | none => none
          | some home =>
            match w.readFile (apiKeyPath home) with
            | none => none
            | some key => some (strTrim key)

/-- Round a rational amount to an integer number of cents:
`⌊q * 100 + 1 / 2⌋`, written directly on the numerator and denominator so
it evaluates by kernel reduction.  Models Rust's `{:.2}` float formatting;
exact for every amount that is a whole number of cents (ties round up
rather than to even, a case no exact-cent amount hits). -/
def round2 (q : ℚ) : ℤ := Int.ediv (200 * q.num + q.den) (2 * q.den)

/-- Render a rational amount with exactly two decimal places, as Rust's
`format!("{:.2}", x)` does. -/
def fmt2 (q : ℚ) : String :=
  let n : ℤ := round2 q
  let sign := if n < 0 then "-" else ""
  let m : ℕ := n.natAbs
  let whole : ℕ := m / 100
  let frac : ℕ := m % 100
  sign ++ toString whole ++ "." ++ (if frac < 10 then "0" else "") ++ toString frac

/-- Smallest exponent `k ≤ 60` with `d ∣ 10 ^ k`, if any. -/
def pow10Exp (d : ℕ) : Option ℕ :=
  (List.range 61).find? (fun k => 10 ^ k % d = 0)

/-- Model of Rust's `f64::to_string` (shortest decimal) for rationals with
a finite decimal expansion — every value an `f64` obtained from a short
decimal literal prints this way (`1.5` ↦ `"1.5"`, `50` ↦ `"50"`).  The
final fallback branch is unreachable for `f64` values. -/
def decStr (q : ℚ) : String :=
  if q.den = 1 then toString q.num
  else
    match pow10Exp q.den with
    | some k =>
      let sign := if q.num < 0 then "-" else ""
      let scaled : ℕ := q.num.natAbs * 10 ^ k / q.den
      let whole : ℕ := scaled / 10 ^ k
      let fr : ℕ := scaled % 10 ^ k
      let frS := toString fr
      sign ++ toString whole ++ "." ++
        String.mk (List.replicate (k - frS.length) (Char.ofNat 48)) ++ frS
    | none => toString q.num ++ "/" ++ toString q.den

/-- `QuotaSegment::format_daily_spent` (quota.rs lines 272-274). -/
def format_daily_spent (spent : ℚ) : String := "Used:$" ++ fmt2 spent

/-- `QuotaSegment::format_balance` (quota.rs lines 276-278). -/
def format_balance (balance : ℚ) : String := "Left:$" ++ fmt2 balance

/-- `QuotaSegment::get_today_cost` (quota.rs lines 280-283): the
`total_cost` of the first usage record, if any. -/
def get_today_cost (response : YesCodeApiResponse) : Option ℚ :=
  response.daily_usage.head?.map (fun usage => usage.total_cost)

/-- `QuotaSegment::collect` (quota.rs lines 287-351).  `quotaFeature`
models the compile-time `cfg(feature = "quota")` switch.  The second
component is the trace of HTTP requests issued, in order. -/
def collect (quotaFeature : Bool) (w : World) :
    Option SegmentData × List ReqEvent :=
  if quotaFeature then
    match load_api_key w with
    | none => (none, [])
    | some api_key =>
      let det := detect_endpoint_static w api_key
      match det.1 with
      | some (endpoint_url, response) =>
        match get_today_cost response with
        | some today_cost =>
          let daily_spent := format_daily_spent today_cost
          let b := try_balance_endpoint w api_key
          let secondary :=
            match b.1 with
            | some balance_response => format_balance balance_response.total_balance
            | none => "Balance Unknown"
          let metadata :=
            [("raw_spent", decStr today_cost), ("endpoint_used", endpoint_url)]
          (some ⟨daily_spent, secondary, metadata⟩, det.2 ++ b.2)
        | none =>
          let b := try_balance_endpoint w api_key
          let secondary :=
            match b.1 with
            | some balance_response => format_balance balance_response.total_balance
            | none => "Balance Unknown"
          let metadata := [("status", "no_data_today")]
          (some ⟨"Used:$0.00", secondary, metadata⟩, det.2 ++ b.2)
      | none =>
        (some ⟨"Offline", "Offline", [("status", "offline")]⟩, det.2)
  else (none, [])

/-- Failure of the usage GET as `try_endpoint` classifies it: transport
error, non-200 status, or undecodable body. -/
def usageFail (r : HttpCallResult YesCodeApiResponse) : Bool :=
  match r with
  | .err => true
  | .resp status decoded => status ≠ 200 || decoded.isNone

/-- Failure of the balance GET as `try_balance_endpoint` classifies it. -/
def balanceFail (r : HttpCallResult BalanceApiResponse) : Bool :=
  match r with
  | .err => true
  | .resp status decoded => status ≠ 200 || decoded.isNone

/-- The sole configured usage endpoint. -/
def mainEndpoint : EndpointConfig :=
  { url := "https://co.yes.vg/api/v1/user/usage/daily", name := "main" }

/-- The secondary display string as `collect` computes it from the balance
fetch: the formatted total balance on success, else the literal. -/
def bsecondary (w : World) (api_key : String) : String :=
  match (try_balance_endpoint w api_key).1 with
  | some balance_response => format_balance balance_response.total_balance
  | none => "Balance Unknown"

lemma detect_endpoint_static_eq (w : World) (api_key : String) :
    detect_endpoint_static w api_key =
      ((try_endpoint w mainEndpoint api_key).1.map
        (fun response => (mainEndpoint.url, response)),
       [ReqEvent.usage mainEndpoint.url]) := by
  simp only [detect_endpoint_static, SmartEndpointDetector.new,
    detect_endpoint_loop, try_endpoint, mainEndpoint]
  cases hc : w.usageCall "https://co.yes.vg/api/v1/user/usage/daily" api_key with
  | err => simp [detect_endpoint_loop]
  | resp status decoded =>
    by_cases hs : status = 200
    · cases decoded <;> simp [hs, detect_endpoint_loop]
    · simp [hs, detect_endpoint_loop]

lemma try_endpoint_fst_of_ok (w : World) (api_key : String)
    (r : YesCodeApiResponse)
    (h : w.usageCall mainEndpoint.url api_key = .resp 200 (some r)) :
    (try_endpoint w mainEndpoint api_key).1 = some r := by
  simp [try_endpoint, h]

lemma try_endpoint_fst_of_fail (w : World) (api_key : String)
    (h : usageFail (w.usageCall mainEndpoint.url api_key) = true) :
    (try_endpoint w mainEndpoint api_key).1 = none := by
  simp only [try_endpoint]
  cases hc : w.usageCall mainEndpoint.url api_key with
  | err => rfl
  | resp status decoded =>
    rw [hc] at h
    simp only [usageFail, ne_eq, Bool.or_eq_true, decide_eq_true_eq,
      Option.isNone_iff_eq_none] at h
    rcases h with h | h
    · simp [h]
    · simp [h]

lemma bsecondary_of_ok (w : World) (api_key : String)
    (b : BalanceApiResponse)
    (h : w.balanceCall get_balance_endpoint.url api_key = .resp 200 (some b)) :
    bsecondary w api_key = format_balance b.total_balance := by
  simp [bsecondary, try_balance_endpoint, h]

lemma bsecondary_of_fail (w : World) (api_key : String)
    (h : balanceFail (w.balanceCall get_balance_endpoint.url api_key) = true) :
    bsecondary w api_key = "Balance Unknown" := by
  simp only [bsecondary, try_balance_endpoint]
  cases hc : w.balanceCall get_balance_endpoint.url api_key with
  | err => rfl
  | resp status decoded =>
    rw [hc] at h
    simp only [balanceFail, ne_eq, Bool.or_eq_true, decide_eq_true_eq,
      Option.isNone_iff_eq_none] at h
    rcases h with h | h
    · simp [h]
    · simp [h]

/-- `collect` in the Offline branch: credential present, the single usage
endpoint fails, so the result is the offline record and no balance request
is issued. -/
lemma collect_offline (w : World) (api_key : String)
    (hk : load_api_key w = some api_key)
    (hu : usageFail (w.usageCall mainEndpoint.url api_key) = true) :
    collect true w =
      (some ⟨"Offline", "Offline", [("status", "offline")]⟩,
       [ReqEvent.usage mainEndpoint.url]) := by
  simp only [collect, if_true, hk, detect_endpoint_static_eq,
    try_endpoint_fst_of_fail w api_key hu, Option.map_none']

/-- `collect` in the Success branch: credential present, usage succeeds
with a non-empty list; the primary shows the first record's cost, the
secondary is `bsecondary`, metadata records the raw cost and the endpoint,
and both endpoints were queried, usage first. -/
lemma collect_success (w : World) (api_key : String)
    (r : YesCodeApiResponse) (u : DailyUsage) (rest : List DailyUsage)
    (hk : load_api_key w = some api_key)
    (hu : w.usageCall mainEndpoint.url api_key = .resp 200 (some r))
    (hl : r.daily_usage = u :: rest) :
    collect true w =
      (some ⟨format_daily_spent u.total_cost, bsecondary w api_key,
        [("raw_spent", decStr u.total_cost),
         ("endpoint_used", mainEndpoint.url)]⟩,
       [ReqEvent.usage mainEndpoint.url,
        ReqEvent.balance get_balance_endpoint.url]) := by
  simp only [collect, if_true, hk, detect_endpoint_static_eq,
    try_endpoint_fst_of_ok w api_key r hu, Option.map_some']
  simp [get_today_cost, hl, bsecondary, try_balance_endpoint]

/-- `collect` in the NoDataToday branch: credential present, usage
succeeds but with an empty list; the primary is the zero literal, balance
is still attempted. -/
lemma collect_nodata (w : World) (api_key : String)
    (r : YesCodeApiResponse)
    (hk : load_api_key w = some api_key)
    (hu : w.usageCall mainEndpoint.url api_key = .resp 200 (some r))
    (hl : r.daily_usage = []) :
    collect true w =
      (some ⟨"Used:$0.00", bsecondary w api_key,
        [("status", "no_data_today")]⟩,
       [ReqEvent.usage mainEndpoint.url,
        ReqEvent.balance get_balance_endpoint.url]) := by
  simp only [collect, if_true, hk, detect_endpoint_static_eq,
    try_endpoint_fst_of_ok w api_key r hu, Option.map_some']
  simp [get_today_cost, hl, bsecondary, try_balance_endpoint]

/-- A world in which every credential source is absent and every remote
call fails. -/
def emptyWorld : World where
  envVar := fun _ => none
  homeDir := none
  readFile := fun _ => none
  parseJson := fun _ => none
  usageCall := fun _ _ => .err
  balanceCall := fun _ _ => .err

/-- Balance response with every field equal to `q`. -/
def balOf (q : ℚ) : BalanceApiResponse := ⟨q, q, q, q⟩

/-- Credential in `YESCODE_API_KEY`; the usage endpoint is unreachable
while the balance endpoint would answer successfully. -/
def wOffline : World :=
  { emptyWorld with
    envVar := fun s => if s = "YESCODE_API_KEY" then some "k" else none
    balanceCall := fun _ _ => .resp 200 (some (balOf 50)) }

/-- Credential present; usage succeeds with one record of cost `1.5`;
balance succeeds with total balance `50`. -/
def wSuccess : World :=
  { emptyWorld with
    envVar := fun s => if s = "YESCODE_API_KEY" then some "k" else none
    usageCall := fun _ _ => .resp 200 (some ⟨[⟨"2024-01-01", mkRat 3 2⟩]⟩)
    balanceCall := fun _ _ => .resp 200 (some (balOf 50)) }

/-- Credential present; usage succeeds with an empty list; balance
succeeds with total balance `10`. -/
def wNoData : World :=
  { emptyWorld with
    envVar := fun s => if s = "YESCODE_API_KEY" then some "k" else none
    usageCall := fun _ _ => .resp 200 (some ⟨[]⟩)
    balanceCall := fun _ _ => .resp 200 (some (balOf 10)) }

/-- Credential present; usage succeeds with one record; the balance
endpoint answers with status 500. -/
def wPartial : World :=
  { emptyWorld with
    envVar := fun s => if s = "YESCODE_API_KEY" then some "k" else none
    usageCall := fun _ _ => .resp 200 (some ⟨[⟨"2024-01-01", mkRat 3 2⟩]⟩)
    balanceCall := fun _ _ => .resp 500 none }

/-- `YESCODE_API_KEY` is set to the empty string; nothing else is
present anywhere. -/
def wEmptyEnv : World :=
  { emptyWorld with
    envVar := fun s => if s = "YESCODE_API_KEY" then some "" else none }

/-- The parsed settings document used by the priority worlds: an `env`
object carrying both `ANTHROPIC_AUTH_TOKEN` and `ANTHROPIC_API_KEY`. -/
def settingsDoc : JsonVal :=
  .obj [("env", .obj [("ANTHROPIC_AUTH_TOKEN", .str "st"),
                      ("ANTHROPIC_API_KEY", .str "sk")])]

/-- Filesystem shared by the priority worlds: a settings file whose text
parses to `settingsDoc`, and a key file containing `" kf "`. -/
def fsWorld : World :=
  { emptyWorld with
    homeDir := some "/h"
    readFile := fun p =>
      if p = settingsPath "/h" then some "SETTINGS"
      else if p = apiKeyPath "/h" then some " kf " else none
    parseJson := fun s => if s = "SETTINGS" then some settingsDoc else none }

/-- All three env vars, the settings file and the key file populated. -/
def wPrioAll : World :=
  { fsWorld with
    envVar := fun s =>
      if s = "YESCODE_API_KEY" then some "y"
      else if s = "ANTHROPIC_API_KEY" then some "a"
      else if s = "ANTHROPIC_AUTH_TOKEN" then some "t" else none }

/-- `YESCODE_API_KEY` absent, the two ANTHROPIC vars and the files
populated. -/
def wPrioNoY : World :=
  { fsWorld with
    envVar := fun s =>
      if s = "ANTHROPIC_API_KEY" then some "a"
      else if s = "ANTHROPIC_AUTH_TOKEN" then some "t" else none }

/-- Only `ANTHROPIC_AUTH_TOKEN` among the env vars, plus the files. -/
def wPrioT : World :=
  { fsWorld with
    envVar := fun s => if s = "ANTHROPIC_AUTH_TOKEN" then some "t" else none }

/-- No env vars; settings file and key file populated. -/
def wPrioSettings : World := fsWorld

/-- No env vars, no settings file; only the key file. -/
def wPrioFile : World :=
  { emptyWorld with
    homeDir := some "/h"
    readFile := fun p => if p = apiKeyPath "/h" then some " kf " else none }

/-- No env vars; a settings file whose text does not parse as JSON; a key
file containing `" kf "`. -/
def wBadSettings : World :=
  { emptyWorld with
    homeDir := some "/h"
    readFile := fun p =>
      if p = settingsPath "/h" then some "not valid json"
      else if p = apiKeyPath "/h" then some " kf " else none }

/-- The nested `env` object of `settingsDoc`. -/
def envDoc : JsonVal :=
  .obj [("ANTHROPIC_AUTH_TOKEN", .str "st"), ("ANTHROPIC_API_KEY", .str "sk")]

lemma collect_fst_isSome (w : World) (api_key : String)
    (hk : load_api_key w = some api_key) : (collect true w).1.isSome := by
  rcases hdet : (detect_endpoint_static w api_key).1 with _ | ⟨u, r⟩
  · simp [collect, hk, hdet]
  · rcases hc : get_today_cost r with _ | c <;> simp [collect, hk, hdet, hc]

/-- C1 (amended): with a credential present, the usage query is attempted
first and the balance query second; the balance endpoint is queried
exactly when usage detection succeeded (also when it returned an empty
usage list), and when every usage endpoint fails the balance endpoint is
not queried at all (the result degrades to Offline directly). -/
theorem quota_C1_usage_then_balance :
    ∀ (w : World) (api_key : String), load_api_key w = some api_key →
      (collect true w).2 =
        (detect_endpoint_static w api_key).2 ++
          (if (detect_endpoint_static w api_key).1.isSome
           then [ReqEvent.balance get_balance_endpoint.url] else []) ∧
      ∀ e ∈ (detect_endpoint_static w api_key).2, ∃ u, e = ReqEvent.usage u := by
  intro w api_key hk
  constructor
  · rcases hdet : (detect_endpoint_static w api_key).1 with _ | ⟨u, r⟩
    · simp [collect, hk, hdet]
    · rcases hc : get_today_cost r with _ | c <;>
        simp [collect, hk, hdet, hc, try_balance_endpoint]
  · rw [detect_endpoint_static_eq]
    intro e he
    simp only [List.mem_singleton] at he
    exact ⟨mainEndpoint.url, he⟩

/-- C1, counterexample to the claim as stated: in `wOffline` a credential
is present and the balance endpoint would answer successfully, yet after
every usage endpoint fails the collection issues no balance request — the
trace holds only the usage request and the result is the Offline record. -/
theorem quota_C1_cex :
    (collect true wOffline).2 =
      [ReqEvent.usage "https://co.yes.vg/api/v1/user/usage/daily"] ∧
    ReqEvent.balance "https://co.yes.vg/api/v1/user/balance" ∉
      (collect true wOffline).2 ∧
    balanceFail (wOffline.balanceCall "https://co.yes.vg/api/v1/user/balance" "k") = false ∧
    (collect true wOffline).1 =
      some ⟨"Offline", "Offline", [("status", "offline")]⟩ := by
  decide

/-- C2: credential resolution tries the sources in a fixed total order:
`YESCODE_API_KEY` wins outright; then `ANTHROPIC_API_KEY` over
`ANTHROPIC_AUTH_TOKEN`; with no env vars, the settings file's nested
`env.ANTHROPIC_AUTH_TOKEN` wins over its `env.ANTHROPIC_API_KEY`; then
the whitespace-trimmed key-file contents; with no source present, the
result is nothing. -/
theorem quota_C2_priority :
    (∀ (w : World) (v : String),
      w.envVar "YESCODE_API_KEY" = some v → load_api_key w = some v) ∧
    (∀ (w : World) (v : String),
      w.envVar "YESCODE_API_KEY" = none →
      w.envVar "ANTHROPIC_API_KEY" = some v → load_api_key w = some v) ∧
    (∀ (w : World) (v : String),
      w.envVar "YESCODE_API_KEY" = none →
      w.envVar "ANTHROPIC_API_KEY" = none →
      w.envVar "ANTHROPIC_AUTH_TOKEN" = some v → load_api_key w = some v) ∧
    (∀ (w : World) (home content : String) (settings env : JsonVal)
        (token : String),
      w.envVar "YESCODE_API_KEY" = none →
      w.envVar "ANTHROPIC_API_KEY" = none →
      w.envVar "ANTHROPIC_AUTH_TOKEN" = none →
      w.homeDir = some home →
      w.readFile (settingsPath home) = some content →
      w.parseJson content = some settings →
      jget settings "env" = some env →
      Option.bind (jget env "ANTHROPIC_AUTH_TOKEN") jasStr = some token →
      load_api_key w = some token) ∧
    (∀ (w : World) (home c : String),
      w.envVar "YESCODE_API_KEY" = none →
      w.envVar "ANTHROPIC_API_KEY" = none →
      w.envVar "ANTHROPIC_AUTH_TOKEN" = none →
      load_from_settings w = none →
      w.homeDir = some home →
      w.readFile (apiKeyPath home) = some c →
      load_api_key w = some (strTrim c)) ∧
    (∀ (w : World),
      w.envVar "YESCODE_API_KEY" = none →
      w.envVar "ANTHROPIC_API_KEY" = none →
      w.envVar "ANTHROPIC_AUTH_TOKEN" = none →
      load_from_settings w = none →
      (∀ home, w.homeDir = some home → w.readFile (apiKeyPath home) = none) →
      load_api_key w = none) := by
  refine ⟨?_, ?_, ?_, ?_, ?_, ?_⟩
  · intro w v h1
    simp only [load_api_key, h1]
  · intro w v h1 h2
    simp only [load_api_key, h1, h2]
  · intro w v h1 h2 h3
    simp only [load_api_key, h1, h2, h3]
  · intro w home content settings env token h1 h2 h3 hh hr hp he ht
    simp only [load_api_key, load_from_settings, h1, h2, h3, hh, hr, hp, he, ht]
  · intro w home c h1 h2 h3 hs hh hr
    simp only [load_api_key, h1, h2, h3, hs, hh, hr]
  · intro w h1 h2 h3 hs hfile
    simp only [load_api_key, h1, h2, h3, hs]
    cases hh : w.homeDir with
    | none => rfl
    | some home => simp [hfile home hh]

/-- Witness for C2: each conjunct applied at a fully concrete world. -/
theorem quota_C2_priority_witness :
    load_api_key wPrioAll = some "y" ∧
    load_api_key wPrioNoY = some "a" ∧
    load_api_key wPrioT = some "t" ∧
    load_api_key wPrioSettings = some "st" ∧
    load_api_key wPrioFile = some (strTrim " kf ") ∧
    load_api_key emptyWorld = none :=
  ⟨quota_C2_priority.1 wPrioAll "y" (by decide),
   quota_C2_priority.2.1 wPrioNoY "a" (by decide) (by decide),
   quota_C2_priority.2.2.1 wPrioT "t" (by decide) (by decide) (by decide),
   quota_C2_priority.2.2.2.1 wPrioSettings "/h" "SETTINGS" settingsDoc envDoc
     "st" (by decide) (by decide) (by decide) (by decide) (by decide) rfl rfl
     rfl,
   quota_C2_priority.2.2.2.2.1 wPrioFile "/h" " kf " (by decide) (by decide)
     (by decide) rfl (by decide) (by decide),
   quota_C2_priority.2.2.2.2.2 emptyWorld (by decide) (by decide) (by decide)
     rfl (fun home h => Option.noConfusion h)⟩

/-- C3: `collect` returns nothing exactly when the quota feature is
disabled at build time or no credential is resolvable; whenever a
credential is resolved with the feature enabled, some result comes back,
even when every remote call fails. -/
theorem quota_C3_silent_iff_nocred :
    ∀ (quotaFeature : Bool) (w : World),
      (collect quotaFeature w).1 = none ↔
        (quotaFeature = false ∨ load_api_key w = none) := by
  intro f w
  cases f with
  | false => simp [collect]
  | true =>
    cases hk : load_api_key w with
    | none => simp [collect, hk]
    | some api_key =>
      constructor
      · intro h
        have hs := collect_fst_isSome w api_key hk
        rw [h] at hs
        simp at hs
      · rintro (h | h)
        · simp at h
        · simp at h

/-- C4: with a valid credential, a well-formed usage response whose
`daily_usage` list is empty forces the primary to the literal
`"Used:$0.00"` and metadata `status=no_data_today`, and the balance fetch
is still attempted — a successful balance with `total_balance = 10` makes
the secondary exactly `"Left:$10.00"`. -/
theorem quota_C4_no_data_today :
    ∀ (w : World) (api_key : String) (b : BalanceApiResponse),
      load_api_key w = some api_key →
      w.usageCall mainEndpoint.url api_key = .resp 200 (some ⟨[]⟩) →
      w.balanceCall get_balance_endpoint.url api_key = .resp 200 (some b) →
      b.total_balance = 10 →
      ∃ d, (collect true w).1 = some d ∧
        d.primary = "Used:$0.00" ∧
        d.secondary = "Left:$10.00" ∧
        d.metadata.lookup "status" = some "no_data_today" ∧
        ReqEvent.balance get_balance_endpoint.url ∈ (collect true w).2 := by
  intro w api_key b hk hu hb h10
  have hc := collect_nodata w api_key ⟨[]⟩ hk hu rfl
  refine ⟨⟨"Used:$0.00", bsecondary w api_key, [("status", "no_data_today")]⟩,
    by rw [hc], rfl, ?_, rfl, ?_⟩
  · show bsecondary w api_key = "Left:$10.00"
    rw [bsecondary_of_ok w api_key b hb, h10]
    decide
  · rw [hc]
    simp

/-- Witness for C4 at the concrete world `wNoData`. -/
theorem quota_C4_witness :
    load_api_key wNoData = some "k" ∧
    wNoData.usageCall mainEndpoint.url "k" =
      HttpCallResult.resp 200 (some ⟨[]⟩) ∧
    wNoData.balanceCall get_balance_endpoint.url "k" =
      HttpCallResult.resp 200 (some (balOf 10)) ∧
    (balOf 10).total_balance = 10 ∧
    (∃ d, (collect true wNoData).1 = some d ∧
      d.primary = "Used:$0.00" ∧
      d.secondary = "Left:$10.00" ∧
      d.metadata.lookup "status" = some "no_data_today" ∧
      ReqEvent.balance get_balance_endpoint.url ∈ (collect true wNoData).2) :=
  ⟨by decide, rfl, rfl, rfl,
   quota_C4_no_data_today wNoData "k" (balOf 10) (by decide) rfl rfl rfl⟩

/-- C5: with a valid credential, when the single usage endpoint fails
(transport error, non-200 status, or undecodable body) the result is the
Offline record: primary and secondary both the literal `"Offline"` and
metadata recording `status=offline`. -/
theorem quota_C5_offline :
    ∀ (w : World) (api_key : String),
      load_api_key w = some api_key →
      usageFail (w.usageCall mainEndpoint.url api_key) = true →
      ∃ d, (collect true w).1 = some d ∧
        d.primary = "Offline" ∧
        d.secondary = "Offline" ∧
        d.metadata.lookup "status" = some "offline" := by
  intro w api_key hk hu
  have hc := collect_offline w api_key hk hu
  exact ⟨⟨"Offline", "Offline", [("status", "offline")]⟩,
    by rw [hc], rfl, rfl, rfl⟩

/-- Witness for C5 at the concrete world `wOffline`. -/
theorem quota_C5_witness :
    load_api_key wOffline = some "k" ∧
    usageFail (wOffline.usageCall mainEndpoint.url "k") = true ∧
    (∃ d, (collect true wOffline).1 = some d ∧
      d.primary = "Offline" ∧
      d.secondary = "Offline" ∧
      d.metadata.lookup "status" = some "offline") :=
  ⟨by decide, by decide, quota_C5_offline wOffline "k" (by decide) (by decide)⟩

/-- C6: when usage data is available (non-empty `daily_usage`) but the
balance fetch fails, the secondary is the literal `"Balance Unknown"`
while the primary still shows the first record's cost through the
two-decimal formatter `format_daily_spent`. -/
theorem quota_C6_balance_unknown :
    ∀ (w : World) (api_key : String) (r : YesCodeApiResponse)
      (u : DailyUsage) (rest : List DailyUsage),
      load_api_key w = some api_key →
      w.usageCall mainEndpoint.url api_key = .resp 200 (some r) →
      r.daily_usage = u :: rest →
      balanceFail (w.balanceCall get_balance_endpoint.url api_key) = true →
      ∃ d, (collect true w).1 = some d ∧
        d.secondary = "Balance Unknown" ∧
        d.primary = format_daily_spent u.total_cost := by
  intro w api_key r u rest hk hu hl hb
  have hc := collect_success w api_key r u rest hk hu hl
  refine ⟨⟨format_daily_spent u.total_cost, bsecondary w api_key,
    [("raw_spent", decStr u.total_cost),
     ("endpoint_used", mainEndpoint.url)]⟩, by rw [hc], ?_, rfl⟩
  exact bsecondary_of_fail w api_key hb

/-- Witness for C6 at the concrete world `wPartial`. -/
theorem quota_C6_witness :
    load_api_key wPartial = some "k" ∧
    wPartial.usageCall mainEndpoint.url "k" =
      HttpCallResult.resp 200 (some ⟨[⟨"2024-01-01", mkRat 3 2⟩]⟩) ∧
    (⟨[⟨"2024-01-01", mkRat 3 2⟩]⟩ : YesCodeApiResponse).daily_usage =
      ⟨"2024-01-01", mkRat 3 2⟩ :: [] ∧
    balanceFail (wPartial.balanceCall get_balance_endpoint.url "k") = true ∧
    (∃ d, (collect true wPartial).1 = some d ∧
      d.secondary = "Balance Unknown" ∧
      d.primary = format_daily_spent (mkRat 3 2)) :=
  ⟨by decide, rfl, rfl, by decide,
   quota_C6_balance_unknown wPartial "k" ⟨[⟨"2024-01-01", mkRat 3 2⟩]⟩
     ⟨"2024-01-01", mkRat 3 2⟩ [] (by decide) rfl rfl (by decide)⟩

/-- C7, counterexample to the claim as stated: the claim asserts that a
resolved credential is always a non-empty string.  In `wEmptyEnv` the only
populated source is `YESCODE_API_KEY` holding the empty string — no source
yields a non-empty value — yet resolution returns `some ""` rather than
nothing. -/
theorem quota_C7_cex :
    load_api_key wEmptyEnv = some "" ∧
    wEmptyEnv.envVar "YESCODE_API_KEY" = some "" ∧
    wEmptyEnv.homeDir = none := by
  decide

/-- C7 (amended): resolution never errors and checks no value for
emptiness — a source that is present is returned as-is even when its
value is the empty string, so a resolved credential need not be
non-empty; if no source yields any value, resolution returns nothing;
and malformed settings JSON is swallowed, resolution falling through to
the next source (the key file) instead of failing. -/
theorem quota_C7_swallow_malformed :
    (∀ (w : World) (v : String),
      w.envVar "YESCODE_API_KEY" = some v → load_api_key w = some v) ∧
    (∀ (w : World) (home content kf : String),
      w.envVar "YESCODE_API_KEY" = none →
      w.envVar "ANTHROPIC_API_KEY" = none →
      w.envVar "ANTHROPIC_AUTH_TOKEN" = none →
      w.homeDir = some home →
      w.readFile (settingsPath home) = some content →
      w.parseJson content = none →
      w.readFile (apiKeyPath home) = some kf →
      load_api_key w = some (strTrim kf)) ∧
    (∀ (w : World),
      w.envVar "YESCODE_API_KEY" = none →
      w.envVar "ANTHROPIC_API_KEY" = none →
      w.envVar "ANTHROPIC_AUTH_TOKEN" = none →
      load_from_settings w = none →
      (∀ home, w.homeDir = some home → w.readFile (apiKeyPath home) = none) →
      load_api_key w = none) := by
  refine ⟨?_, ?_, ?_⟩
  · intro w v h1
    simp only [load_api_key, h1]
  · intro w home content kf h1 h2 h3 hh hr hp hf
    have hs : load_from_settings w = none := by
      simp only [load_from_settings, hh, hr, hp]
    simp only [load_api_key, h1, h2, h3, hs, hh, hf]
  · intro w h1 h2 h3 hs hfile
    simp only [load_api_key, h1, h2, h3, hs]
    cases hh : w.homeDir with
    | none => rfl
    | some home => simp [hfile home hh]

/-- Witness for C7 (amended): the empty-but-set `YESCODE_API_KEY` of
`wEmptyEnv` resolves to `some ""`; malformed settings JSON at
`wBadSettings` falls through to the key file; with every source absent
the result is nothing. -/
theorem quota_C7_witness :
    load_api_key wEmptyEnv = some "" ∧
    load_api_key wBadSettings = some (strTrim " kf ") ∧
    load_api_key emptyWorld = none :=
  ⟨quota_C7_swallow_malformed.1 wEmptyEnv "" (by decide),
   quota_C7_swallow_malformed.2.1 wBadSettings "/h" "not valid json" " kf "
     (by decide) (by decide) (by decide) rfl (by decide) rfl (by decide),
   quota_C7_swallow_malformed.2.2 emptyWorld (by decide) (by decide)
     (by decide) rfl (fun home h => Option.noConfusion h)⟩

/-- Witness for C1 (amended) at the concrete world `wOffline`. -/
theorem quota_C1_witness :
    load_api_key wOffline = some "k" ∧
    ((collect true wOffline).2 =
      (detect_endpoint_static wOffline "k").2 ++
        (if (detect_endpoint_static wOffline "k").1.isSome
         then [ReqEvent.balance get_balance_endpoint.url] else []) ∧
     ∀ e ∈ (detect_endpoint_static wOffline "k").2,
       ∃ u, e = ReqEvent.usage u) :=
  ⟨by decide, quota_C1_usage_then_balance wOffline "k" (by decide)⟩

/-- C8, counterexample to the claim as stated: the claim says metadata
captures the raw numeric inputs — the usage *and* balance figures — as
strings.  In `wSuccess` the balance fetch succeeded with total balance 50,
whose string form is `"50"`, yet the returned metadata holds only
`raw_spent` and `endpoint_used`; no metadata value is the balance
figure. -/
theorem quota_C8_cex :
    (collect true wSuccess).1 =
      some ⟨"Used:$1.50", "Left:$50.00",
        [("raw_spent", "1.5"),
         ("endpoint_used", "https://co.yes.vg/api/v1/user/usage/daily")]⟩ ∧
    decStr (balOf 50).total_balance = "50" ∧
    (∀ p ∈ [("raw_spent", "1.5"),
        ("endpoint_used", "https://co.yes.vg/api/v1/user/usage/daily")],
      Prod.snd p ≠ "50") := by
  decide

/-- C8 (amended): in the Success state the metadata captures exactly the
raw usage figure as a string under `raw_spent` and the URL of the endpoint
that satisfied the usage query under `endpoint_used` — two entries, no
more; the fetched balance figure is never recorded. -/
theorem quota_C8_metadata :
    ∀ (w : World) (api_key : String) (r : YesCodeApiResponse)
      (u : DailyUsage) (rest : List DailyUsage),
      load_api_key w = some api_key →
      w.usageCall mainEndpoint.url api_key = .resp 200 (some r) →
      r.daily_usage = u :: rest →
      ∃ d, (collect true w).1 = some d ∧
        d.metadata.lookup "raw_spent" = some (decStr u.total_cost) ∧
        d.metadata.lookup "endpoint_used" = some mainEndpoint.url ∧
        d.metadata.length = 2 := by
  intro w api_key r u rest hk hu hl
  have hc := collect_success w api_key r u rest hk hu hl
  exact ⟨⟨format_daily_spent u.total_cost, bsecondary w api_key,
    [("raw_spent", decStr u.total_cost),
     ("endpoint_used", mainEndpoint.url)]⟩, by rw [hc], rfl, rfl, rfl⟩

/-- Witness for C8 (amended) at the concrete world `wSuccess`. -/
theorem quota_C8_witness :
    load_api_key wSuccess = some "k" ∧
    wSuccess.usageCall mainEndpoint.url "k" =
      HttpCallResult.resp 200 (some ⟨[⟨"2024-01-01", mkRat 3 2⟩]⟩) ∧
    (∃ d, (collect true wSuccess).1 = some d ∧
      d.metadata.lookup "raw_spent" = some (decStr (mkRat 3 2)) ∧
      d.metadata.lookup "endpoint_used" = some mainEndpoint.url ∧
      d.metadata.length = 2) :=
  ⟨by decide, rfl,
   quota_C8_metadata wSuccess "k" ⟨[⟨"2024-01-01", mkRat 3 2⟩]⟩
     ⟨"2024-01-01", mkRat 3 2⟩ [] (by decide) rfl rfl⟩

/-- C9: every returned `SegmentData` carries at least one metadata key
recording the outcome class — `status=offline`, `status=no_data_today`, or
the success fields `raw_spent` and `endpoint_used`. -/
theorem quota_C9_status_key :
    ∀ (quotaFeature : Bool) (w : World) (d : SegmentData),
      (collect quotaFeature w).1 = some d →
      d.metadata.lookup "status" = some "offline" ∨
      d.metadata.lookup "status" = some "no_data_today" ∨
      ((d.metadata.lookup "raw_spent").isSome ∧
       (d.metadata.lookup "endpoint_used").isSome) := by
  intro f w d h
  cases f with
  | false => simp [collect] at h
  | true =>
    cases hk : load_api_key w with
    | none => simp [collect, hk] at h
    | some api_key =>
      rcases hdet : (detect_endpoint_static w api_key).1 with _ | ⟨u, r⟩
      · simp only [collect, if_true, hk, hdet, Option.some.injEq] at h
        subst h
        left
        rfl
      · rcases hcost : get_today_cost r with _ | c
        · simp only [collect, if_true, hk, hdet, hcost,
            Option.some.injEq] at h
          subst h
          right
          left
          rfl
        · simp only [collect, if_true, hk, hdet, hcost,
            Option.some.injEq] at h
          subst h
          right
          right
          exact ⟨rfl, rfl⟩

/-- Witness for C9 at the concrete world `wOffline`. -/
theorem quota_C9_witness :
    (collect true wOffline).1 =
      some ⟨"Offline", "Offline", [("status", "offline")]⟩ ∧
    ((⟨"Offline", "Offline",
        [("status", "offline")]⟩ : SegmentData).metadata.lookup "status" =
          some "offline" ∨
     (⟨"Offline", "Offline",
        [("status", "offline")]⟩ : SegmentData).metadata.lookup "status" =
          some "no_data_today" ∨
     (((⟨"Offline", "Offline",
          [("status", "offline")]⟩ : SegmentData).metadata.lookup
            "raw_spent").isSome ∧
      ((⟨"Offline", "Offline",
          [("status", "offline")]⟩ : SegmentData).metadata.lookup
            "endpoint_used").isSome)) :=
  ⟨by decide,
   quota_C9_status_key true wOffline
     ⟨"Offline", "Offline", [("status", "offline")]⟩ (by decide)⟩

/-- C10: the usage-endpoint catalog holds exactly one endpoint, url
`"https://co.yes.vg/api/v1/user/usage/daily"` and name `"main"`; hence
whenever detection succeeds, the returned endpoint url is exactly that
URL, for every api key and every world. -/
theorem quota_C10_single_endpoint :
    SmartEndpointDetector.new =
      [{ url := "https://co.yes.vg/api/v1/user/usage/daily",
         name := "main" }] ∧
    ∀ (w : World) (api_key url : String) (r : YesCodeApiResponse),
      (detect_endpoint_static w api_key).1 = some (url, r) →
      url = "https://co.yes.vg/api/v1/user/usage/daily" := by
  refine ⟨rfl, ?_⟩
  intro w api_key url r h
  rw [detect_endpoint_static_eq] at h
  simp only [Option.map_eq_some'] at h
  obtain ⟨resp, hr, heq⟩ := h
  injection heq with h1 h2
  exact h1.symm

/-- Witness for C10 at the concrete world `wSuccess`. -/
theorem quota_C10_witness :
    (detect_endpoint_static wSuccess "k").1 =
      some ("https://co.yes.vg/api/v1/user/usage/daily",
        ⟨[⟨"2024-01-01", mkRat 3 2⟩]⟩) ∧
    "https://co.yes.vg/api/v1/user/usage/daily" =
      "https://co.yes.vg/api/v1/user/usage/daily" :=
  ⟨by decide,
   quota_C10_single_endpoint.2 wSuccess "k"
     "https://co.yes.vg/api/v1/user/usage/daily"
     ⟨[⟨"2024-01-01", mkRat 3 2⟩]⟩ (by decide)⟩
